import Mathlib

/-!
Shallow embedding of the Telegram MTProto relay backend
(src/unnamed/part_000, the latest revision, together with the earlier
revisions concatenated in src/src/index.js) and proofs about it.

Conventions of the embedding:
* JavaScript wide integers (BigInt primitives and the boxed integer
  objects produced by the protocol library, which carry a `.value`
  BigInt) are modelled by the inductive `JsId` over `Int`.
* JavaScript truthiness is made explicit: a BigInt primitive is falsy
  exactly when it is zero, a boxed object is always truthy, a string is
  falsy exactly when it is empty, `null`/`undefined` (modelled as
  `Option.none`) is falsy.
* External collaborators (the protocol client's downloads, the fetch
  HTTP responses, node's md5) are parameters of the embedded functions:
  the code under test is deterministic given their results.
-/

namespace TgRelay

/-- A JavaScript wide-integer value as handled by bigIntToString:
either a BigInt primitive or a library object whose .value is a BigInt. -/
inductive JsId where
  | bigintVal (n : Int)
  | boxedVal (n : Int)
deriving DecidableEq, Repr

/-- JavaScript truthiness of a JsId: the BigInt primitive 0n is falsy,
every object is truthy. -/
def JsId.truthy : JsId → Bool
  | .bigintVal n => n ≠ 0
  | .boxedVal _ => true

/-- Truthiness of a possibly absent value (null/undefined are falsy). -/
def truthyId : Option JsId → Bool
  | none => false
  | some v => v.truthy

/-- JavaScript truthiness of a possibly absent string: null/undefined
and the empty string are falsy. -/
def truthyStr : Option String → Bool
  | none => false
  | some s => s ≠ ""

/-- The JS idiom a || b on possibly absent strings. -/
def jsOrStr (a : Option String) (b : String) : String :=
  match a with
  | some s => if s = "" then b else s
  | none => b

/-- The JS idiom a || b on two possibly absent values (|| falls through
on null/undefined; for object-valued fields absence is the only falsy case). -/
def jsOrOpt (a b : Option α) : Option α :=
  match a with
  | some x => some x
  | none => b

/-- String(x) applied to a possibly-null string: String(null) is "null". -/
def jsString : Option String → String
  | some s => s
  | none => "null"

/-- Embedding of bigIntToString (part_000 lines 74-83): null/undefined
map to null, a BigInt primitive and a boxed BigInt map to their decimal
string. -/
def bigIntToString : Option JsId → Option String
  | none => none
  | some (.bigintVal n) => some (toString n)
  | some (.boxedVal n) => some (toString n)

/-- A peer identifier as inspected by extractChatId: up to three
optional wide-integer fields. -/
structure PeerId where
  userId : Option JsId
  chatId : Option JsId
  channelId : Option JsId
deriving DecidableEq, Repr

/-- Embedding of extractChatId (part_000 lines 86-92): null peer maps to
null; otherwise the first TRUTHY field among userId, chatId, channelId
is rendered with bigIntToString; if none is truthy the result is null. -/
def extractChatId : Option PeerId → Option String
  | none => none
  | some p =>
    if truthyId p.userId then bigIntToString p.userId
    else if truthyId p.chatId then bigIntToString p.chatId
    else if truthyId p.channelId then bigIntToString p.channelId
    else none

/-- The claim's reading of extractChatId: the first PRESENT field in the
order userId, chatId, channelId, independent of truthiness. -/
def firstPresentId (p : PeerId) : Option JsId :=
  jsOrOpt p.userId (jsOrOpt p.chatId p.channelId)

/-- Sender fields extracted by extractSenderInfo. -/
structure SenderInfo where
  firstName : Option String
  lastName : Option String
  username : Option String
  isBot : Bool
deriving DecidableEq, Repr

/-- Default sender info when message._sender and message.sender are both
absent (part_000 lines 98-106). -/
def noSenderInfo : SenderInfo :=
  { firstName := none, lastName := none, username := none, isBot := false }

/-- Embedding of extractSenderInfo (part_000 lines 95-115): the raw
sender object carries optional name fields and a bot flag. -/
def extractSenderInfo (sender : Option SenderInfo) : SenderInfo :=
  match sender with
  | none => noSenderInfo
  | some s => s

/-- One entry of the per-handler photo cache: the cached data URL and
the Date.now() timestamp at which it was fetched (part_000 line 497). -/
structure CacheEntry where
  url : String
  timestamp : Int
deriving DecidableEq, Repr

/-- The photo cache, a JS Map from chat id to entry, modelled as an
association list in insertion order. -/
abbrev PhotoCache := List (String × CacheEntry)

/-- Map.get. -/
def cacheGet (m : PhotoCache) (k : String) : Option CacheEntry :=
  (List.find? (fun e => e.1 = k) m).map (fun e => e.2)

/-- Map.set: overwrite in place when the key exists, else append. -/
def cacheSet (m : PhotoCache) (k : String) (v : CacheEntry) : PhotoCache :=
  if (List.find? (fun e => e.1 = k) m).isSome then
    List.map (fun e => if e.1 = k then (k, v) else e) m
  else m ++ [(k, v)]

/-- Map.delete. -/
def cacheDelete (m : PhotoCache) (k : String) : PhotoCache :=
  List.filter (fun e => e.1 ≠ k) m

/-- Result of the profile-photo section of the message handler. -/
structure PhotoStepResult where
  url : Option String
  cache : PhotoCache
  fetchCalled : Bool
deriving DecidableEq

/-- Embedding of the photo-cache lookup inside the message handler
(part_000 lines 482-502), entered with the incoming non-bot guard
already passed.  clientPresent models telegramClients.get(botId)
returning an entry; fetchResult models what getProfilePhotoUrl would
return if invoked (null on any failure).  The cached value is used only
when the stored url is truthy and strictly younger than 3600000 ms;
otherwise, when the client is present, the fetch function runs and its
result is stored only when truthy, a falsy result instead deleting the
key.  photoFetchBranch is the shared else-branch (lines 488-501): run
the fetch only when the client entry exists, cache only truthy results,
delete the key on a falsy result. -/
def photoFetchBranch (cache : PhotoCache) (chatId : String) (now : Int)
    (clientPresent : Bool) (fetchResult : Option String) : PhotoStepResult :=
  if clientPresent then
    if truthyStr fetchResult then
      { url := fetchResult,
        cache := cacheSet cache chatId ⟨jsString fetchResult, now⟩,
        fetchCalled := true }
    else
      { url := fetchResult, cache := cacheDelete cache chatId, fetchCalled := true }
  else
    { url := none, cache := cache, fetchCalled := false }

def photoLookup (cache : PhotoCache) (chatId : String) (now : Int)
    (clientPresent : Bool) (fetchResult : Option String) : PhotoStepResult :=
  match cacheGet cache chatId with
  | some entry =>
    if entry.url ≠ "" ∧ now - entry.timestamp < 3600000 then
      { url := some entry.url, cache := cache, fetchCalled := false }
    else
      photoFetchBranch cache chatId now clientPresent fetchResult
  | none => photoFetchBranch cache chatId now clientPresent fetchResult

/-- One attribute of a Telegram document, with the fields getMediaInfo
inspects: className, whether .stickerset is defined, .alt, .nosound. -/
structure DocAttribute where
  className : String
  stickersetDefined : Bool
  alt : Option String
  nosound : Bool
deriving DecidableEq, Repr

/-- A Telegram document as inspected by getMediaInfo. -/
structure TgDocument where
  attributes : List DocAttribute
  mimeType : Option String
  id : Option JsId
  accessHash : Option JsId
deriving DecidableEq, Repr

/-- A Telegram photo as inspected by getMediaInfo. -/
structure TgPhoto where
  id : Option JsId
  accessHash : Option JsId
deriving DecidableEq, Repr

/-- The message.media wrapper. -/
structure TgMedia where
  className : String
  photo : Option TgPhoto
  document : Option TgDocument
deriving DecidableEq, Repr

/-- The media-bearing fields of a message. -/
structure MediaFields where
  media : Option TgMedia
  photo : Option TgPhoto
  document : Option TgDocument
deriving DecidableEq, Repr

/-- The record returned by getMediaInfo (the mediaObject field, a
reference handed to the downloader, is omitted: downloads are a
parameter of the embedding). -/
structure MediaInfo where
  type : String
  subType : Option String
  mimeType : String
  id : Option JsId
  accessHash : Option JsId
  emoji : Option String
deriving DecidableEq, Repr

/-- The document branch of getMediaInfo (part_000 lines 258-312):
sticker attributes first, then the animation check, then the regular
document classified by MIME prefix. -/
def docMediaInfo (doc : TgDocument) : MediaInfo :=
  let attrs := doc.attributes
  match List.find? (fun a => a.className = "DocumentAttributeSticker" || a.stickersetDefined) attrs with
  | some stickerAttr =>
    let isAnimated := doc.mimeType = some "application/x-tgsticker"
    let isVideo := doc.mimeType = some "video/webm"
    { type := "sticker",
      subType := some (if isAnimated then "animated" else if isVideo then "video" else "static"),
      mimeType := jsOrStr doc.mimeType "image/webp",
      id := doc.id,
      accessHash := doc.accessHash,
      emoji := if truthyStr stickerAttr.alt then stickerAttr.alt else none }
  | none =>
    let animatedAttr := List.find? (fun a => a.className = "DocumentAttributeAnimated") attrs
    if animatedAttr.isSome
        || (doc.mimeType = some "video/mp4"
            && List.any attrs (fun a => a.className = "DocumentAttributeVideo" && a.nosound)) then
      { type := "animation", subType := some "gif",
        mimeType := jsOrStr doc.mimeType "video/mp4",
        id := doc.id, accessHash := doc.accessHash, emoji := none }
    else
      let mimeType := jsOrStr doc.mimeType "application/octet-stream"
      let ty :=
        if String.startsWith mimeType "video/" then "video"
        else if String.startsWith mimeType "audio/" then "audio"
        else if String.startsWith mimeType "image/" then "photo"
        else "document"
      { type := ty, subType := none, mimeType := mimeType,
        id := doc.id, accessHash := doc.accessHash, emoji := none }

/-- Embedding of getMediaInfo (part_000 lines 252-340).  The document
branch is entered when media.className is MessageMediaDocument or a
document is present, and falls through when doc is still null; then the
photo branch; then the unknown-media fallback; else null. -/
def getMediaInfo (m : MediaFields) : Option MediaInfo :=
  let media := m.media
  let photo := jsOrOpt m.photo (Option.bind media (fun md => md.photo))
  let document := jsOrOpt m.document (Option.bind media (fun md => md.document))
  let docBranch : Option MediaInfo :=
    if (Option.map (fun md => md.className) media) = some "MessageMediaDocument"
        || document.isSome then
      match jsOrOpt document (Option.bind media (fun md => md.document)) with
      | some doc => some (docMediaInfo doc)
      | none => none
    else none
  match docBranch with
  | some info => some info
  | none =>
    match photo with
    | some ph =>
      some { type := "photo", subType := none, mimeType := "image/jpeg",
             id := ph.id, accessHash := ph.accessHash, emoji := none }
    | none =>
      match media with
      | some md =>
        some { type := "unknown",
               subType := if md.className = "" then none else some md.className,
               mimeType := "application/octet-stream",
               id := none, accessHash := none, emoji := none }
      | none => none

/-- A downloaded byte buffer. -/
abbrev ByteBuf := List Nat

/-- The content key computed by downloadMessageMedia (part_000 lines
382-392): the decimal string of the protocol media id when that id is
truthy, else the gen_-prefixed first 16 hex characters of the md5 of the
downloaded bytes.  md5hex stands for node's crypto md5 hex digest. -/
def fileUniqueIdOf (md5hex : ByteBuf → String) (info : MediaInfo) (buf : ByteBuf) : String :=
  if truthyId info.id then jsString (bigIntToString info.id)
  else "gen_" ++ String.take (md5hex buf) 16

/-- The upload request assembled by downloadMessageMedia (part_000 lines
394-429) after the sticker/animation MIME normalization. -/
structure UploadRequest where
  fileUniqueId : String
  fileId : Option String
  mimeType : String
  storageMediaType : String
deriving DecidableEq, Repr

/-- Embedding of downloadMessageMedia (part_000 lines 344-441) up to the
upload call.  download models client.downloadMedia: none for a thrown
error or a null buffer.  Returns the upload request that would be
submitted, or none when the code returns null before uploading (no
media, animated sticker skipped, failed or empty download). -/
def mediaUploadRequest (md5hex : ByteBuf → String) (m : MediaFields)
    (download : Option ByteBuf) : Option UploadRequest :=
  match getMediaInfo m with
  | none => none
  | some info =>
    if info.type = "sticker" && info.subType = some "animated" then none
    else
      match download with
      | none => none
      | some buf =>
        if buf.length = 0 then none
        else
          let fileUniqueId := fileUniqueIdOf md5hex info buf
          let fileId := if truthyId info.accessHash then bigIntToString info.accessHash else none
          let mimeType :=
            if info.type = "sticker" then
              if info.subType = some "video" then "video/webm" else "image/webp"
            else if info.type = "animation" then "video/mp4"
            else info.mimeType
          let storageMediaType := info.type
          some { fileUniqueId := fileUniqueId, fileId := fileId,
                 mimeType := mimeType, storageMediaType := storageMediaType }

/-- Embedding of the tail of downloadMessageMedia: when the upload
succeeds the handler receives the same fileUniqueId it submitted
(uploadMediaToStorage, part_000 lines 229-242), else null. -/
def downloadMessageMedia (md5hex : ByteBuf → String) (m : MediaFields)
    (download : Option ByteBuf) (uploadOk : Bool) : Option String :=
  match mediaUploadRequest md5hex m download with
  | none => none
  | some req => if uploadOk then some req.fileUniqueId else none

/-- A Telegram message as inspected by the message handler. -/
structure TgMessage where
  peerId : Option PeerId
  out : Bool
  sender : Option SenderInfo
  mediaFields : MediaFields
  text : String
  id : Option JsId
deriving DecidableEq, Repr

/-- hasMedia, part_000 line 466: !!(message.media || message.photo ||
message.document). -/
def hasMediaOf (m : TgMessage) : Bool :=
  m.mediaFields.media.isSome || m.mediaFields.photo.isSome
    || m.mediaFields.document.isSome

/-- An identifier field of the JSON body sent to the backend: either a
JSON string or a native JSON number. -/
inductive JsonId where
  | strVal (s : String)
  | numVal (n : Int)
deriving DecidableEq, Repr

/-- Whether a JSON identifier field is carried as a string. -/
def JsonId.isStr : JsonId → Bool
  | .strVal _ => true
  | .numVal _ => false

/-- The payload assembled by the part_000 message handler (lines
542-557). -/
structure SyncPayload where
  chatId : JsonId
  messageId : JsonId
  text : String
  isOutgoing : Bool
  sender : SenderInfo
  profilePhotoUrl : Option String
  fileUniqueId : Option String
deriving DecidableEq, Repr

/-- The observable result of one run of the part_000 message handler:
the payload that is handed to syncViaBackendFunction (none when the
handler returned early and synced nothing), the photo cache afterwards,
and whether the profile-photo fetch and the media download were
attempted. -/
structure HandlerRun where
  payload : Option SyncPayload
  cache : PhotoCache
  photoFetchAttempted : Bool
  mediaDownloadAttempted : Bool
deriving DecidableEq

/-- Embedding of the part_000 message handler (lines 449-563).  event
models event.message (none when absent); clientPresent models
telegramClients.get(botId) finding an entry; now, fetchResult, md5hex,
download and uploadOk are the environment of the photo fetch and the
media pipeline.  replyMarkup handling (lines 515-539) only reshapes an
optional field the claims never mention and is omitted. -/
def handleMessage (event : Option TgMessage) (clientPresent : Bool)
    (cache : PhotoCache) (now : Int) (fetchResult : Option String)
    (md5hex : ByteBuf → String) (download : Option ByteBuf)
    (uploadOk : Bool) : HandlerRun :=
  match event with
  | none => { payload := none, cache := cache,
              photoFetchAttempted := false, mediaDownloadAttempted := false }
  | some message =>
    match extractChatId message.peerId with
    | none => { payload := none, cache := cache,
                photoFetchAttempted := false, mediaDownloadAttempted := false }
    | some chatId =>
      let isOutgoing := message.out
      let senderInfo := extractSenderInfo message.sender
      let hasMedia := hasMediaOf message
      let photoStep :=
        if !isOutgoing && !senderInfo.isBot then
          photoLookup cache chatId now clientPresent fetchResult
        else
          { url := none, cache := cache, fetchCalled := false }
      let mediaAttempted := hasMedia && clientPresent
      let mediaResult :=
        if mediaAttempted then
          downloadMessageMedia md5hex message.mediaFields download uploadOk
        else none
      { payload := some
          { chatId := .strVal chatId,
            messageId := .strVal (jsString (bigIntToString message.id)),
            text := message.text,
            isOutgoing := isOutgoing,
            sender := senderInfo,
            profilePhotoUrl := photoStep.url,
            fileUniqueId := mediaResult },
        cache := photoStep.cache,
        photoFetchAttempted := photoStep.fetchCalled,
        mediaDownloadAttempted := mediaAttempted }

/-- Accumulate a run of decimal digits; none on a non-digit. -/
def parseDigitsAux : List Char → Nat → Option Nat
  | [], acc => some acc
  | c :: cs, acc =>
    if Char.isDigit c then parseDigitsAux cs (10 * acc + (Char.toNat c - 48))
    else none

/-- Parse a nonempty all-digit character run. -/
def parseDigits (cs : List Char) : Option Nat :=
  match cs with
  | [] => none
  | _ => parseDigitsAux cs 0

/-- parseInt applied to the decimal strings produced by bigIntToString
(the only arguments it receives in the first revision's handler).  The
float rounding parseInt performs above 2^53 is not modelled; the claims
concern only whether the field is a string or a number. -/
def jsParseInt (s : String) : Int :=
  match s.data with
  | c :: rest =>
    if c = Char.ofNat 45 then -(Int.ofNat ((parseDigits rest).getD 0))
    else Int.ofNat ((parseDigits s.data).getD 0)
  | [] => 0

/-- chatData built by the first revision's handler
(src/src/index.js lines 172-177): chat_id is parseInt(chatId), a native
number. -/
structure RevAChatData where
  chat_id : JsonId
  username : Option String
  first_name : Option String
  last_name : Option String
deriving DecidableEq, Repr

/-- messageData built by the first revision's handler
(src/src/index.js lines 179-184): message_id is
parseInt(bigIntToString(message.id)), a native number. -/
structure RevAMessageData where
  message_id : JsonId
  text : String
  direction : String
deriving DecidableEq, Repr

/-- Embedding of the first revision's message handler
(src/src/index.js lines 151-196) up to the syncToSupabase call: the
records it would upsert, or none when the handler returns early. -/
def revAHandleMessage (event : Option TgMessage) :
    Option (RevAChatData × RevAMessageData) :=
  match event with
  | none => none
  | some message =>
    match extractChatId message.peerId with
    | none => none
    | some chatId =>
      let isOutgoing := message.out
      let direction := if isOutgoing then "outgoing" else "incoming"
      let senderInfo := extractSenderInfo message.sender
      some
        ({ chat_id := .numVal (jsParseInt chatId),
           username := senderInfo.username,
           first_name := senderInfo.firstName,
           last_name := senderInfo.lastName },
         { message_id := .numVal (jsParseInt (jsString (bigIntToString message.id))),
           text := message.text,
           direction := direction })

/-- The outcome the network produces for one fetch call: a resolved
response with its HTTP status, or a thrown transport error (connection
reset, timeout, DNS failure). -/
inductive FetchOutcome where
  | response (status : Nat)
  | networkError
deriving DecidableEq, Repr

/-- response.ok per the Fetch standard: status in the inclusive range
200-299. -/
def responseOk (status : Nat) : Bool :=
  decide (200 ≤ status) && decide (status ≤ 299)

/-- Embedding of syncViaBackendFunction (part_000 lines 157-198): one
fetch; a non-ok response logs and returns false, a thrown error logs and
returns false, an ok response returns true.  There is no loop and no
status-dependent branching beyond response.ok. -/
def syncViaBackendFunction (outcome : FetchOutcome) : Bool :=
  match outcome with
  | .response status => responseOk status
  | .networkError => false

/-- One delivery of a payload as the handler performs it (part_000 line
560): exactly one awaited call to syncViaBackendFunction.  outcomes is
the stream of outcomes the network would hand to successive HTTP
attempts; the pair returned is the delivery result and the number of
HTTP attempts actually made. -/
def syncDelivery (outcomes : List FetchOutcome) : Bool × Nat :=
  match outcomes with
  | [] => (false, 0)
  | outcome :: _ => (syncViaBackendFunction outcome, 1)

/-- The value stored in the telegramClients Map (part_000 lines
616-621); the client handle itself is opaque to the claims. -/
structure ClientInfo where
  botName : String
  botUsername : String
  connectedAt : String
deriving DecidableEq, Repr

/-- The telegramClients Map, an association list keyed by bot id in
insertion order. -/
abbrev Registry := List (String × ClientInfo)

/-- Map.get on the registry. -/
def registryGet (reg : Registry) (botId : String) : Option ClientInfo :=
  (List.find? (fun e => e.1 = botId) reg).map (fun e => e.2)

/-- Map.has on the registry. -/
def registryHas (reg : Registry) (botId : String) : Bool :=
  (registryGet reg botId).isSome

/-- Map.set on the registry. -/
def registrySet (reg : Registry) (botId : String) (info : ClientInfo) : Registry :=
  if (List.find? (fun e => e.1 = botId) reg).isSome then
    List.map (fun e => if e.1 = botId then (botId, info) else e) reg
  else reg ++ [(botId, info)]

/-- The bot row handed to connectBot. -/
structure BotRow where
  id : String
  nome : String
  api_token : Option String
deriving DecidableEq, Repr

/-- The combined result of awaiting client.start and client.getMe inside
connectBot's try block: the bot username on success, or the thrown
error's message. -/
inductive AuthResult where
  | ok (username : String)
  | err (message : String)
deriving DecidableEq, Repr

/-- Embedding of connectBot (part_000 lines 571-629): missing token
returns false; an id already in the registry returns true untouched;
otherwise the client is created and authenticated, and only after
start and getMe succeed is the entry stored; a throw is caught and
returns false.  now models new Date().toISOString(). -/
def connectBot (reg : Registry) (bot : BotRow) (auth : AuthResult)
    (now : String) : Registry × Bool :=
  if !truthyStr bot.api_token then (reg, false)
  else if registryHas reg bot.id then (reg, true)
  else
    match auth with
    | .err _ => (reg, false)
    | .ok username =>
      (registrySet reg bot.id
        { botName := bot.nome, botUsername := username, connectedAt := now }, true)

/-- The HTTP response of the POST /send/:botId endpoint (part_000 lines
800-820). -/
inductive SendResponse where
  | notConnected (status : Nat) (error : String)
  | sent (messageId : String)
  | sendFailed (status : Nat)
deriving DecidableEq, Repr

/-- Whether the endpoint answered with an HTTP error status. -/
def SendResponse.isErrorResponse : SendResponse → Bool
  | .notConnected _ _ => true
  | .sent _ => false
  | .sendFailed _ => true

/-- Embedding of the POST /send/:botId handler (part_000 lines 800-820):
an id absent from the registry answers 404 with an error body; otherwise
the send either succeeds with the stringified message id or answers
500.  sendResult models client.sendMessage. -/
def sendEndpoint (reg : Registry) (botId : String)
    (sendResult : Except String JsId) : SendResponse :=
  match registryGet reg botId with
  | none => .notConnected 404 "Bot não conectado"
  | some _ =>
    match sendResult with
    | .ok mid => .sent (jsString (bigIntToString (some mid)))
    | .error _ => .sendFailed 500

/-- Modelled from the spec: the Delivery Queue of §4.2 and §8 has no
implementation under src/ (no bounded queue exists in any source
revision); this state is the spec's QueueItem buffer plus the recorded
Dropped outcomes, faithful to the words of §4.2 enqueue. -/
structure QueueState (α : Type) where
  queue : List α
  dropped : List α
deriving DecidableEq

/-- Modelled from the spec: enqueue(item) appends to the tail; if the
current size is at least maxQueueSize it first evicts the head (oldest)
item and records a Dropped outcome for it, then appends the new item
(§4.2). -/
def enqueue (maxQueueSize : Nat) (st : QueueState α) (item : α) : QueueState α :=
  if maxQueueSize ≤ st.queue.length then
    match st.queue with
    | [] => { queue := [item], dropped := st.dropped }
    | oldest :: rest => { queue := rest ++ [item], dropped := st.dropped ++ [oldest] }
  else
    { queue := st.queue ++ [item], dropped := st.dropped }

/-- A whole sequence of enqueue calls, oldest first. -/
def enqueueAll (maxQueueSize : Nat) (st : QueueState α) (items : List α) : QueueState α :=
  List.foldl (enqueue maxQueueSize) st items

/-- The empty Delivery Queue. -/
def emptyQueue : QueueState α := { queue := [], dropped := [] }

/-- The identifier fields of a peer that are present, in the order the
code checks them. -/
def idCandidates (p : PeerId) : List JsId :=
  List.filterMap id [p.userId, p.chatId, p.channelId]

/-- Decimal rendering of one identifier value. -/
def renderId (v : JsId) : String := jsString (bigIntToString (some v))

/-- How many registry entries carry a given key. -/
def countKey (reg : Registry) (k : String) : Nat :=
  (List.filter (fun e => e.1 = k) reg).length

/-- Embedding of the single-bot revision's POST /send
(src/src/index.js lines 1275-1294): when the isConnected flag is false
or the client is null it answers 503 with an error body, else sends. -/
def revCSendEndpoint (isConnected : Bool) (clientExists : Bool)
    (sendResult : Except String JsId) : SendResponse :=
  if !isConnected || !clientExists then
    .notConnected 503 "Not connected to Telegram"
  else
    match sendResult with
    | .ok mid => .sent (jsString (bigIntToString (some mid)))
    | .error _ => .sendFailed 500

theorem bigIntToString_some (v : JsId) :
    bigIntToString (some v) = some (renderId v) := by
  cases v <;> rfl

theorem renderId_decimal (v : JsId) : ∃ n : Int, renderId v = toString n := by
  cases v with
  | bigintVal n => exact ⟨n, rfl⟩
  | boxedVal n => exact ⟨n, rfl⟩

theorem extractChatId_eq_findTruthy (p : PeerId) :
    extractChatId (some p) =
      Option.map renderId (List.find? JsId.truthy (idCandidates p)) := by
  rcases p with ⟨u, c, ch⟩
  rcases u with _ | vu <;> rcases c with _ | vc <;> rcases ch with _ | vch <;>
    simp only [extractChatId, idCandidates, List.filterMap, id, truthyId,
      List.find?, bigIntToString_some, Option.map] <;>
    (try cases hvu : vu.truthy) <;>
    (try cases hvc : vc.truthy) <;>
    (try cases hvch : vch.truthy) <;>
    simp_all [bigIntToString_some]

theorem extractChatId_decimal (o : Option PeerId) (s : String)
    (h : extractChatId o = some s) : ∃ n : Int, s = toString n := by
  cases o with
  | none => simp [extractChatId] at h
  | some p =>
    rw [extractChatId_eq_findTruthy] at h
    cases hf : List.find? JsId.truthy (idCandidates p) with
    | none => rw [hf] at h; simp at h
    | some v =>
      rw [hf] at h
      simp only [Option.map] at h
      obtain ⟨n, hn⟩ := renderId_decimal v
      exact ⟨n, by rw [← Option.some_inj.mp h, hn]⟩

theorem handleMessage_drop (m : TgMessage) (clientPresent : Bool)
    (cache : PhotoCache) (now : Int) (fetchResult : Option String)
    (md5hex : ByteBuf → String) (download : Option ByteBuf) (uploadOk : Bool)
    (h : extractChatId m.peerId = none) :
    handleMessage (some m) clientPresent cache now fetchResult md5hex download uploadOk =
      { payload := none, cache := cache,
        photoFetchAttempted := false, mediaDownloadAttempted := false } := by
  simp only [handleMessage, h]

/-- Claim C7 (corrected): events whose peer has no truthy identifier
normalize to null and the handler drops them silently (no record, cache
untouched, no fetch and no download attempted); for the others,
extractChatId returns the decimal string of the first TRUTHY identifier
in the order userId, chatId, channelId.  Presence alone does not
suffice: a BigInt-primitive identifier equal to 0 is skipped (see the
counterexample). -/
theorem extractChatId_first_truthy_and_drop (p : PeerId) (m : TgMessage)
    (clientPresent : Bool) (cache : PhotoCache) (now : Int)
    (fetchResult : Option String) (md5hex : ByteBuf → String)
    (download : Option ByteBuf) (uploadOk : Bool) :
    extractChatId (some p) =
      Option.map renderId (List.find? JsId.truthy (idCandidates p))
    ∧ (m.peerId = some p → List.find? JsId.truthy (idCandidates p) = none →
        handleMessage (some m) clientPresent cache now fetchResult md5hex download uploadOk =
          { payload := none, cache := cache,
            photoFetchAttempted := false, mediaDownloadAttempted := false }) := by
  refine ⟨extractChatId_eq_findTruthy p, fun hp hf => ?_⟩
  apply handleMessage_drop
  rw [hp, extractChatId_eq_findTruthy, hf]
  rfl

/-- Claim C7 counterexample: a peer whose first present identifier is
the BigInt primitive 0 (userId) with a chatId of 5: the claim predicts
the string form of the first present identifier, namely 0, but
extractChatId returns 5. -/
theorem extractChatId_counterexample :
    firstPresentId
        { userId := some (.bigintVal 0), chatId := some (.bigintVal 5), channelId := none }
      = some (.bigintVal 0)
    ∧ Option.map renderId (firstPresentId
        { userId := some (.bigintVal 0), chatId := some (.bigintVal 5), channelId := none })
      = some "0"
    ∧ extractChatId (some
        { userId := some (.bigintVal 0), chatId := some (.bigintVal 5), channelId := none })
      = some "5" := by
  refine ⟨rfl, ?_, ?_⟩ <;> decide

/-- Witness for the C7 theorem at a concrete dropped event: a peer whose
only identifier is the falsy BigInt 0 is dropped whole. -/
theorem extractChatId_first_truthy_and_drop_witness :
    handleMessage (some
        { peerId := some { userId := some (.bigintVal 0), chatId := none, channelId := none },
          out := false, sender := none,
          mediaFields := { media := none, photo := none, document := none },
          text := "", id := none })
        true [] 0 none (fun _ => "") none true =
      { payload := none, cache := [],
        photoFetchAttempted := false, mediaDownloadAttempted := false } :=
  (extractChatId_first_truthy_and_drop
      { userId := some (.bigintVal 0), chatId := none, channelId := none }
      { peerId := some { userId := some (.bigintVal 0), chatId := none, channelId := none },
        out := false, sender := none,
        mediaFields := { media := none, photo := none, document := none },
        text := "", id := none }
      true [] 0 none (fun _ => "") none true).2 rfl (by decide)

/-- Claim C2 (corrected, amended part): in the part_000 handler every
synced record carries chatId and messageId as JSON strings, chatId being
the decimal string of a wide integer; messageId is the stringified
bigIntToString of the message id. -/
theorem syncPayload_ids_are_strings (m : TgMessage) (clientPresent : Bool)
    (cache : PhotoCache) (now : Int) (fetchResult : Option String)
    (md5hex : ByteBuf → String) (download : Option ByteBuf) (uploadOk : Bool)
    (p : SyncPayload)
    (h : (handleMessage (some m) clientPresent cache now fetchResult md5hex download uploadOk).payload
          = some p) :
    p.chatId.isStr = true
    ∧ p.messageId = .strVal (jsString (bigIntToString m.id))
    ∧ ∃ n : Int, p.chatId = .strVal (toString n) := by
  simp only [handleMessage] at h
  cases hc : extractChatId m.peerId with
  | none => rw [hc] at h; simp at h
  | some cid =>
    rw [hc] at h
    simp only [Option.some_inj] at h
    obtain ⟨n, hn⟩ := extractChatId_decimal m.peerId cid hc
    subst h
    exact ⟨rfl, rfl, ⟨n, by rw [hn]⟩⟩

/-- Claim C2 counterexample: the first revision's handler
(src/src/index.js lines 171-184) carries chat_id and message_id through
parseInt as native JSON numbers, not decimal strings. -/
theorem syncRecord_native_number_counterexample :
    Option.map (fun r => (r.1.chat_id, r.2.message_id))
        (revAHandleMessage (some
          { peerId := some { userId := some (.boxedVal 5), chatId := none, channelId := none },
            out := false, sender := none,
            mediaFields := { media := none, photo := none, document := none },
            text := "hi", id := some (.boxedVal 7) }))
      = some (.numVal 5, .numVal 7)
    ∧ JsonId.isStr (.numVal 5) = false
    ∧ JsonId.isStr (.numVal 7) = false := by
  refine ⟨?_, rfl, rfl⟩
  decide

/-- Witness for the C2 theorem at a concrete processed message. -/
theorem syncPayload_ids_are_strings_witness :
    JsonId.isStr (JsonId.strVal "5") = true ∧
    (JsonId.strVal "7") = JsonId.strVal (jsString (bigIntToString (some (.boxedVal 7)))) :=
  ⟨(syncPayload_ids_are_strings
      { peerId := some { userId := some (.boxedVal 5), chatId := none, channelId := none },
        out := false, sender := none,
        mediaFields := { media := none, photo := none, document := none },
        text := "hi", id := some (.boxedVal 7) }
      true [] 0 none (fun _ => "") none true
      { chatId := .strVal "5", messageId := .strVal "7", text := "hi",
        isOutgoing := false, sender := noSenderInfo,
        profilePhotoUrl := none, fileUniqueId := none }
      (by decide)).1,
   (syncPayload_ids_are_strings
      { peerId := some { userId := some (.boxedVal 5), chatId := none, channelId := none },
        out := false, sender := none,
        mediaFields := { media := none, photo := none, document := none },
        text := "hi", id := some (.boxedVal 7) }
      true [] 0 none (fun _ => "") none true
      { chatId := .strVal "5", messageId := .strVal "7", text := "hi",
        isOutgoing := false, sender := noSenderInfo,
        profilePhotoUrl := none, fileUniqueId := none }
      (by decide)).2.1⟩

/-- Claim C10 (confirmed): a processed message that is outgoing or whose
sender is a bot gets a null profilePhotoUrl and no fetch attempt; a
fetch attempt implies the message was incoming from a non-bot sender. -/
theorem profilePhoto_only_incoming_nonbot (m : TgMessage) (clientPresent : Bool)
    (cache : PhotoCache) (now : Int) (fetchResult : Option String)
    (md5hex : ByteBuf → String) (download : Option ByteBuf) (uploadOk : Bool) :
    ((m.out = true ∨ (extractSenderInfo m.sender).isBot = true) →
       (handleMessage (some m) clientPresent cache now fetchResult md5hex download uploadOk).photoFetchAttempted = false
       ∧ ∀ p, (handleMessage (some m) clientPresent cache now fetchResult md5hex download uploadOk).payload = some p →
           p.profilePhotoUrl = none)
    ∧ ((handleMessage (some m) clientPresent cache now fetchResult md5hex download uploadOk).photoFetchAttempted = true →
        m.out = false ∧ (extractSenderInfo m.sender).isBot = false) := by
  simp only [handleMessage]
  cases hc : extractChatId m.peerId with
  | none =>
    refine ⟨fun _ => ⟨rfl, fun p hp => by simp at hp⟩, fun hf => by simp at hf⟩
  | some cid =>
    cases hout : m.out with
    | true =>
      refine ⟨fun _ => ⟨rfl, fun p hp => ?_⟩, fun hf => by simp at hf⟩
      simp only [Option.some_inj] at hp
      rw [← hp]
      simp
    | false =>
      cases hbot : (extractSenderInfo m.sender).isBot with
      | true =>
        refine ⟨fun _ => ⟨rfl, fun p hp => ?_⟩, fun hf => by simp at hf⟩
        simp only [Option.some_inj] at hp
        rw [← hp]
        simp
      | false =>
        exact ⟨fun h => by simp at h, fun _ => ⟨rfl, rfl⟩⟩

/-- Witness for the C10 theorem at a concrete outgoing message. -/
theorem profilePhoto_only_incoming_nonbot_witness :
    (handleMessage (some
        { peerId := some { userId := some (.boxedVal 5), chatId := none, channelId := none },
          out := true, sender := none,
          mediaFields := { media := none, photo := none, document := none },
          text := "", id := some (.boxedVal 7) })
        true [] 0 (some "data:image/jpeg;base64,x") (fun _ => "") none true).photoFetchAttempted
      = false :=
  ((profilePhoto_only_incoming_nonbot
      { peerId := some { userId := some (.boxedVal 5), chatId := none, channelId := none },
        out := true, sender := none,
        mediaFields := { media := none, photo := none, document := none },
        text := "", id := some (.boxedVal 7) }
      true [] 0 (some "data:image/jpeg;base64,x") (fun _ => "") none true).1
    (Or.inl rfl)).1

theorem cacheGet_delete (m : PhotoCache) (k : String) :
    cacheGet (cacheDelete m k) k = none := by
  induction m with
  | nil => rfl
  | cons e rest ih =>
    simp only [cacheDelete] at ih ⊢
    by_cases he : e.1 = k
    · rw [List.filter_cons_of_neg (by simp [he])]
      exact ih
    · rw [List.filter_cons_of_pos (by simp [he])]
      simp only [cacheGet] at ih ⊢
      simp [List.find?_cons, he, ih]

theorem photoLookup_fresh (cache : PhotoCache) (chatId : String) (now : Int)
    (clientPresent : Bool) (fetchResult : Option String) (e : CacheEntry)
    (he : cacheGet cache chatId = some e) (hu : e.url ≠ "")
    (hf : now - e.timestamp < 3600000) :
    photoLookup cache chatId now clientPresent fetchResult =
      { url := some e.url, cache := cache, fetchCalled := false } := by
  simp [photoLookup, he, hu, hf]

theorem photoLookup_not_fresh (cache : PhotoCache) (chatId : String) (now : Int)
    (clientPresent : Bool) (fetchResult : Option String) (e : CacheEntry)
    (he : cacheGet cache chatId = some e)
    (h : ¬ (e.url ≠ "" ∧ now - e.timestamp < 3600000)) :
    photoLookup cache chatId now clientPresent fetchResult =
      photoFetchBranch cache chatId now clientPresent fetchResult := by
  simp only [photoLookup, he]
  rw [if_neg h]

theorem photoLookup_missing (cache : PhotoCache) (chatId : String) (now : Int)
    (clientPresent : Bool) (fetchResult : Option String)
    (he : cacheGet cache chatId = none) :
    photoLookup cache chatId now clientPresent fetchResult =
      photoFetchBranch cache chatId now clientPresent fetchResult := by
  simp only [photoLookup, he]

theorem photoFetchBranch_called (cache : PhotoCache) (chatId : String)
    (now : Int) (fetchResult : Option String) :
    (photoFetchBranch cache chatId now true fetchResult).fetchCalled = true := by
  simp only [photoFetchBranch, if_true]
  split <;> rfl

theorem photoFetchBranch_none (cache : PhotoCache) (chatId : String) (now : Int) :
    photoFetchBranch cache chatId now true none =
      { url := none, cache := cacheDelete cache chatId, fetchCalled := true } := rfl

/-- Claim C6 (confirmed): with the client present, a lookup finding a
truthy cache entry strictly younger than 3600000 ms returns it without
calling the fetch function and leaves the cache unchanged; a lookup with
no entry, or with an entry at least 3600000 ms old, calls the fetch
function; and whenever the fetch was called and returned null the chat
id is absent from the resulting cache, so nulls are never stored. -/
theorem photoCache_spec (cache : PhotoCache) (chatId : String) (now : Int)
    (fetchResult : Option String) :
    (∀ e, cacheGet cache chatId = some e → e.url ≠ "" → now - e.timestamp < 3600000 →
        photoLookup cache chatId now true fetchResult =
          { url := some e.url, cache := cache, fetchCalled := false })
    ∧ (cacheGet cache chatId = none →
        (photoLookup cache chatId now true fetchResult).fetchCalled = true)
    ∧ (∀ e, cacheGet cache chatId = some e → 3600000 ≤ now - e.timestamp →
        (photoLookup cache chatId now true fetchResult).fetchCalled = true)
    ∧ ((photoLookup cache chatId now true fetchResult).fetchCalled = true →
        fetchResult = none →
        cacheGet (photoLookup cache chatId now true fetchResult).cache chatId = none) := by
  refine ⟨?_, ?_, ?_, ?_⟩
  · intro e he hu hf
    exact photoLookup_fresh cache chatId now true fetchResult e he hu hf
  · intro he
    rw [photoLookup_missing cache chatId now true fetchResult he]
    exact photoFetchBranch_called cache chatId now fetchResult
  · intro e he hst
    have hlt : ¬ (e.url ≠ "" ∧ now - e.timestamp < 3600000) := by
      intro hcon
      omega
    rw [photoLookup_not_fresh cache chatId now true fetchResult e he hlt]
    exact photoFetchBranch_called cache chatId now fetchResult
  · intro hf hnone
    subst hnone
    cases he : cacheGet cache chatId with
    | none =>
      rw [photoLookup_missing cache chatId now true none he, photoFetchBranch_none]
      exact cacheGet_delete cache chatId
    | some e =>
      by_cases hcond : e.url ≠ "" ∧ now - e.timestamp < 3600000
      · rw [photoLookup_fresh cache chatId now true none e he hcond.1 hcond.2] at hf
        simp at hf
      · rw [photoLookup_not_fresh cache chatId now true none e he hcond, photoFetchBranch_none]
        exact cacheGet_delete cache chatId

/-- Witness for the C6 theorem: a fresh truthy entry is served from the
cache without a fetch. -/
theorem photoCache_spec_witness :
    photoLookup [("c", { url := "u", timestamp := 0 })] "c" 10 true (some "w") =
      { url := some "u", cache := [("c", { url := "u", timestamp := 0 })],
        fetchCalled := false } :=
  (photoCache_spec [("c", { url := "u", timestamp := 0 })] "c" 10 (some "w")).1
    { url := "u", timestamp := 0 } (by decide) (by decide) (by decide)

theorem downloadMessageMedia_fallback_key (md5hex : ByteBuf → String)
    (m : MediaFields) (buf : ByteBuf) (uploadOk : Bool) (i : MediaInfo) (k : String)
    (hi : getMediaInfo m = some i) (ht : truthyId i.id = false)
    (hk : downloadMessageMedia md5hex m (some buf) uploadOk = some k) :
    k = "gen_" ++ String.take (md5hex buf) 16 := by
  simp only [downloadMessageMedia, mediaUploadRequest, hi] at hk
  cases hcond : (i.type = "sticker" && i.subType = some "animated") with
  | true => rw [hcond] at hk; simp at hk
  | false =>
    rw [hcond] at hk
    simp only [Bool.false_eq_true, if_false] at hk
    by_cases hb : buf.length = 0
    · rw [if_pos hb] at hk; simp at hk
    · rw [if_neg hb] at hk
      cases uploadOk with
      | false => simp at hk
      | true =>
        simp only [if_true, Option.some_inj] at hk
        rw [← hk]
        simp [fileUniqueIdOf, ht]

/-- Claim C1 (corrected, amended part): identical downloaded bytes are
guaranteed to produce identical content keys only on the fallback path:
when neither media item carries a truthy protocol id, both keys equal
gen_ followed by the first 16 hex characters of the md5 of the shared
bytes, hence coincide; and since the key is a pure function of the item
and its bytes, this holds regardless of arrival order. -/
theorem contentKey_fallback_deterministic (md5hex : ByteBuf → String)
    (m1 m2 : MediaFields) (buf : ByteBuf) (ub1 ub2 : Bool)
    (i1 i2 : MediaInfo) (k1 k2 : String)
    (h1 : getMediaInfo m1 = some i1) (h2 : getMediaInfo m2 = some i2)
    (ht1 : truthyId i1.id = false) (ht2 : truthyId i2.id = false)
    (hk1 : downloadMessageMedia md5hex m1 (some buf) ub1 = some k1)
    (hk2 : downloadMessageMedia md5hex m2 (some buf) ub2 = some k2) :
    k1 = "gen_" ++ String.take (md5hex buf) 16 ∧ k1 = k2 := by
  have e1 := downloadMessageMedia_fallback_key md5hex m1 buf ub1 i1 k1 h1 ht1 hk1
  have e2 := downloadMessageMedia_fallback_key md5hex m2 buf ub2 i2 k2 h2 ht2 hk2
  exact ⟨e1, by rw [e1, e2]⟩

/-- Claim C1 counterexample: two photos with identical downloaded bytes
but protocol ids 1 and 2 receive the content keys 1 and 2 — the key
prefers the protocol id over the bytes, so identical buffers do not
imply identical keys. -/
theorem contentKey_counterexample :
    downloadMessageMedia (fun _ => "")
        { media := none,
          photo := some { id := some (.boxedVal 1), accessHash := some (.boxedVal 11) },
          document := none }
        (some [7, 7, 7]) true = some "1"
    ∧ downloadMessageMedia (fun _ => "")
        { media := none,
          photo := some { id := some (.boxedVal 2), accessHash := some (.boxedVal 12) },
          document := none }
        (some [7, 7, 7]) true = some "2"
    ∧ ("1" : String) ≠ "2" := by
  refine ⟨?_, ?_, ?_⟩ <;> decide

/-- Witness for the C1 theorem at a concrete id-less media item (the
unknown-media fallback of getMediaInfo). -/
theorem contentKey_fallback_deterministic_witness :
    ("gen_aaaabbbbccccdddd" : String) = "gen_" ++ String.take "aaaabbbbccccddddeeee" 16
    ∧ ("gen_aaaabbbbccccdddd" : String) = "gen_aaaabbbbccccdddd" :=
  contentKey_fallback_deterministic (fun _ => "aaaabbbbccccddddeeee")
    { media := some { className := "MessageMediaGeo", photo := none, document := none },
      photo := none, document := none }
    { media := some { className := "MessageMediaGeo", photo := none, document := none },
      photo := none, document := none }
    [1] true true
    { type := "unknown", subType := some "MessageMediaGeo",
      mimeType := "application/octet-stream", id := none, accessHash := none, emoji := none }
    { type := "unknown", subType := some "MessageMediaGeo",
      mimeType := "application/octet-stream", id := none, accessHash := none, emoji := none }
    "gen_aaaabbbbccccdddd" "gen_aaaabbbbccccdddd"
    (by decide) (by decide) (by decide) (by decide) (by decide) (by decide)

/-- Claim C3 (corrected, amended part): every delivery to the backend
sync endpoint makes exactly one HTTP attempt; any non-2xx response
(4xx and 5xx alike) and any transport failure is terminal, reported as a
false result with no retry ever performed. -/
theorem syncDelivery_single_attempt (outcome : FetchOutcome)
    (rest : List FetchOutcome) (s : Nat) :
    syncDelivery (outcome :: rest) = (syncViaBackendFunction outcome, 1)
    ∧ (400 ≤ s → syncViaBackendFunction (.response s) = false)
    ∧ syncViaBackendFunction .networkError = false := by
  refine ⟨rfl, fun hs => ?_, rfl⟩
  simp only [syncViaBackendFunction, responseOk]
  have h299 : ¬ (s ≤ 299) := by omega
  simp [h299]

/-- Claim C3 counterexample: the spec scenario of three HTTP 500
responses followed by HTTP 200 ends after a single failed attempt — the
code performs no retries, so it never reaches the eventual 200 and the
delivery is reported false, not Delivered with 3 retries. -/
theorem retryScenario_counterexample :
    syncDelivery [.response 500, .response 500, .response 500, .response 200]
      = (false, 1) := by decide

/-- Witness for the C3 theorem at a concrete 4xx response. -/
theorem syncDelivery_single_attempt_witness :
    syncViaBackendFunction (.response 404) = false :=
  (syncDelivery_single_attempt (.response 404) [] 404).2.1 (by decide)

theorem enqueueAll_bounds {α : Type} (n : Nat) (hn : 1 ≤ n) :
    ∀ (items : List α) (st : QueueState α), st.queue.length ≤ n →
      (enqueueAll n st items).queue.length = min (st.queue.length + items.length) n
      ∧ (enqueueAll n st items).dropped.length
          = st.dropped.length + (st.queue.length + items.length - n) := by
  intro items
  induction items with
  | nil =>
    intro st hst
    refine ⟨?_, ?_⟩ <;> simp [enqueueAll] <;> omega
  | cons i rest ih =>
    intro st hst
    have hstep : enqueueAll n st (i :: rest) = enqueueAll n (enqueue n st i) rest := by
      simp [enqueueAll]
    rw [hstep]
    by_cases hcap : n ≤ st.queue.length
    · have hlen : st.queue.length = n := le_antisymm hst hcap
      cases hq : st.queue with
      | nil =>
        rw [hq] at hlen
        simp at hlen
        omega
      | cons oldest tl =>
        have henq : enqueue n st i =
            { queue := tl ++ [i], dropped := st.dropped ++ [oldest] } := by
          simp only [enqueue]
          rw [if_pos hcap, hq]
        rw [henq]
        have htl : tl.length + 1 = n := by
          rw [hq] at hlen
          simpa using hlen
        obtain ⟨ihl, ihd⟩ :=
          ih { queue := tl ++ [i], dropped := st.dropped ++ [oldest] }
            (by simp; omega)
        refine ⟨?_, ?_⟩
        · rw [ihl]; simp; omega
        · rw [ihd]; simp; omega
    · have henq : enqueue n st i =
          { queue := st.queue ++ [i], dropped := st.dropped } := by
        simp only [enqueue]
        rw [if_neg hcap]
      rw [henq]
      obtain ⟨ihl, ihd⟩ :=
        ih { queue := st.queue ++ [i], dropped := st.dropped } (by simp; omega)
      refine ⟨?_, ?_⟩
      · rw [ihl]; simp; omega
      · rw [ihd]; simp; omega

/-- Claim C4 (confirmed; the Delivery Queue is modelled from the spec,
no queue code exists under src/): starting from the empty queue, any
sequence of enqueue calls leaves at most maxQueueSize items queued, and
the number of recorded Dropped outcomes equals the number of enqueues
beyond capacity (truncated subtraction). -/
theorem deliveryQueue_bounded {α : Type} (n : Nat) (items : List α) (hn : 1 ≤ n) :
    (enqueueAll n emptyQueue items).queue.length ≤ n
    ∧ (enqueueAll n emptyQueue items).dropped.length = items.length - n := by
  obtain ⟨hl, hd⟩ := enqueueAll_bounds n hn items emptyQueue (by simp [emptyQueue])
  refine ⟨?_, ?_⟩
  · rw [hl]; simp [emptyQueue]
  · rw [hd]; simp [emptyQueue]

/-- Witness for the C4 theorem: three enqueues into a queue of capacity
two leave two items and one recorded drop. -/
theorem deliveryQueue_bounded_witness :
    (enqueueAll 2 emptyQueue [10, 20, 30]).queue.length ≤ 2
    ∧ (enqueueAll 2 (emptyQueue : QueueState Nat) [10, 20, 30]).dropped.length = 3 - 2 :=
  deliveryQueue_bounded 2 [10, 20, 30] (by decide)

theorem photoLookup_no_client (cache : PhotoCache) (chatId : String)
    (now : Int) (fetchResult : Option String) :
    (photoLookup cache chatId now false fetchResult).fetchCalled = false
    ∧ (photoLookup cache chatId now false fetchResult).cache = cache := by
  cases he : cacheGet cache chatId with
  | none =>
    rw [photoLookup_missing cache chatId now false fetchResult he]
    exact ⟨rfl, rfl⟩
  | some e =>
    by_cases hc : e.url ≠ "" ∧ now - e.timestamp < 3600000
    · rw [photoLookup_fresh cache chatId now false fetchResult e he hc.1 hc.2]
      exact ⟨rfl, rfl⟩
    · rw [photoLookup_not_fresh cache chatId now false fetchResult e he hc]
      exact ⟨rfl, rfl⟩

/-- Claim C5 (corrected, amended part): when the registry holds no
client for the bot, the message handler silently skips both the
profile-photo fetch and the media download (no fetch call, no download
attempt, cache untouched, fileUniqueId null in any record it still
produces); the outbound send endpoint, by contrast, answers the HTTP
caller with a 404 error body. -/
theorem sessionUnavailable_behavior (m : TgMessage) (cache : PhotoCache)
    (now : Int) (fetchResult : Option String) (md5hex : ByteBuf → String)
    (download : Option ByteBuf) (uploadOk : Bool) (reg : Registry)
    (botId : String) (sendResult : Except String JsId) :
    ((handleMessage (some m) false cache now fetchResult md5hex download uploadOk).photoFetchAttempted = false
     ∧ (handleMessage (some m) false cache now fetchResult md5hex download uploadOk).mediaDownloadAttempted = false
     ∧ (handleMessage (some m) false cache now fetchResult md5hex download uploadOk).cache = cache
     ∧ ∀ p, (handleMessage (some m) false cache now fetchResult md5hex download uploadOk).payload = some p →
         p.fileUniqueId = none)
    ∧ (registryGet reg botId = none →
        sendEndpoint reg botId sendResult = .notConnected 404 "Bot não conectado") := by
  constructor
  · cases hc : extractChatId m.peerId with
    | none =>
      rw [handleMessage_drop m false cache now fetchResult md5hex download uploadOk hc]
      exact ⟨rfl, rfl, rfl, fun p hp => by simp at hp⟩
    | some cid =>
      simp only [handleMessage, hc]
      obtain ⟨hfc, hcc⟩ := photoLookup_no_client cache cid now fetchResult
      by_cases hg : (!m.out && !(extractSenderInfo m.sender).isBot) = true
      · rw [if_pos hg]
        refine ⟨hfc, by simp, hcc, fun p hp => ?_⟩
        simp only [Option.some_inj] at hp
        rw [← hp]
        simp
      · rw [if_neg hg]
        refine ⟨rfl, by simp, rfl, fun p hp => ?_⟩
        simp only [Option.some_inj] at hp
        rw [← hp]
        simp
  · intro h
    simp [sendEndpoint, h]

/-- Claim C5 counterexample: a send request for a bot with no live
session is not a silent skip: the multi-bot endpoint answers HTTP 404
with an error body and the single-bot revision answers HTTP 503 — an
escalated error, where the claim requires a no-op. -/
theorem sendEndpoint_counterexample :
    sendEndpoint [] "bot1" (.ok (.bigintVal 1)) = .notConnected 404 "Bot não conectado"
    ∧ SendResponse.isErrorResponse (sendEndpoint [] "bot1" (.ok (.bigintVal 1))) = true
    ∧ revCSendEndpoint false true (.ok (.bigintVal 1))
        = .notConnected 503 "Not connected to Telegram" :=
  ⟨rfl, rfl, rfl⟩

/-- Witness for the C5 theorem at a concrete disconnected send. -/
theorem sessionUnavailable_behavior_witness :
    sendEndpoint [] "bot2" (.error "x") = .notConnected 404 "Bot não conectado" :=
  (sessionUnavailable_behavior
      { peerId := none, out := false, sender := none,
        mediaFields := { media := none, photo := none, document := none },
        text := "", id := none }
      [] 0 none (fun _ => "") none true [] "bot2" (.error "x")).2 rfl

theorem registrySet_not_present (reg : Registry) (b : String) (v : ClientInfo)
    (h : registryHas reg b = false) : registrySet reg b v = reg ++ [(b, v)] := by
  have h2 : (List.find? (fun e => e.1 = b) reg).isSome = false := by
    simpa [registryHas, registryGet] using h
  simp only [registrySet, h2]
  simp

theorem countKey_append (l1 l2 : Registry) (k : String) :
    countKey (l1 ++ l2) k = countKey l1 k + countKey l2 k := by
  simp [countKey, List.filter_append]

theorem countKey_zero_aux (reg : Registry) (b : String)
    (h : List.find? (fun e => e.1 = b) reg = none) : countKey reg b = 0 := by
  induction reg with
  | nil => rfl
  | cons e rest ih =>
    by_cases he : e.1 = b
    · exfalso
      simp [List.find?_cons, he] at h
    · have h2 : List.find? (fun e => e.1 = b) rest = none := by
        simpa [List.find?_cons, he] using h
      have hrest := ih h2
      simp only [countKey] at hrest ⊢
      rw [List.filter_cons_of_neg (by simp [he])]
      exact hrest

theorem countKey_zero_of_not_has (reg : Registry) (b : String)
    (h : registryHas reg b = false) : countKey reg b = 0 := by
  have h2 : (List.find? (fun e => e.1 = b) reg).isSome = false := by
    simpa [registryHas, registryGet] using h
  cases hf : List.find? (fun e => e.1 = b) reg with
  | some e => rw [hf] at h2; simp at h2
  | none => exact countKey_zero_aux reg b hf

/-- Claim C8 (corrected, amended part): a connect request for an account
already present in the registry never touches the registry, and reports
success whenever the row still carries a token; and every connectBot
call preserves the at-most-one-entry-per-account invariant. -/
theorem registry_single_session (reg : Registry) (bot : BotRow)
    (auth : AuthResult) (now : String) :
    (registryHas reg bot.id = true →
       (connectBot reg bot auth now).1 = reg
       ∧ (truthyStr bot.api_token = true → connectBot reg bot auth now = (reg, true)))
    ∧ (∀ k, countKey reg k ≤ 1 → countKey (connectBot reg bot auth now).1 k ≤ 1) := by
  constructor
  · intro hhas
    cases ht : truthyStr bot.api_token with
    | false =>
      refine ⟨?_, fun hcon => by simp at hcon⟩
      simp [connectBot, ht]
    | true =>
      have heq : connectBot reg bot auth now = (reg, true) := by
        simp [connectBot, ht, hhas]
      exact ⟨by rw [heq], fun _ => heq⟩
  · intro k hk
    cases ht : truthyStr bot.api_token with
    | false => simpa [connectBot, ht] using hk
    | true =>
      cases hhas : registryHas reg bot.id with
      | true => simpa [connectBot, ht, hhas] using hk
      | false =>
        cases auth with
        | err e => simpa [connectBot, ht, hhas] using hk
        | ok u =>
          have hcb : (connectBot reg bot (.ok u) now).1 =
              registrySet reg bot.id
                { botName := bot.nome, botUsername := u, connectedAt := now } := by
            simp [connectBot, ht, hhas]
          rw [hcb, registrySet_not_present reg bot.id _ hhas, countKey_append]
          by_cases hkb : k = bot.id
          · rw [hkb, countKey_zero_of_not_has reg bot.id hhas]
            simp [countKey]
          · have hone : countKey [(bot.id,
                { botName := bot.nome, botUsername := u, connectedAt := now })] k = 0 := by
              simp only [countKey]
              rw [List.filter_cons_of_neg (by simp; intro hcon; exact hkb hcon.symm)]
              rfl
            omega

/-- Claim C8 counterexample: a connect request for an account that is
already registered but whose row has lost its token reports failure, not
success (the registry is still left untouched). -/
theorem connectBot_tokenless_counterexample :
    connectBot [("b1", { botName := "Bot", botUsername := "bot", connectedAt := "t0" })]
        { id := "b1", nome := "Bot", api_token := none } (.ok "bot") "t1"
      = ([("b1", { botName := "Bot", botUsername := "bot", connectedAt := "t0" })], false)
    ∧ registryHas [("b1", { botName := "Bot", botUsername := "bot", connectedAt := "t0" })] "b1"
      = true := by
  refine ⟨?_, ?_⟩ <;> decide

/-- Witness for the C8 theorem: reconnecting an already-registered bot
that still has a token reports success and leaves the registry alone. -/
theorem registry_single_session_witness :
    connectBot [("b1", { botName := "Bot", botUsername := "bot", connectedAt := "t0" })]
        { id := "b1", nome := "Bot", api_token := some "123:abc" } (.ok "bot") "t1"
      = ([("b1", { botName := "Bot", botUsername := "bot", connectedAt := "t0" })], true) :=
  ((registry_single_session
      [("b1", { botName := "Bot", botUsername := "bot", connectedAt := "t0" })]
      { id := "b1", nome := "Bot", api_token := some "123:abc" }
      (.ok "bot") "t1").1 (by decide)).2 (by decide)

/-- Claim C9 (confirmed): connectBot is atomic with respect to the
registry: with a missing token it returns false untouched; when
authentication throws and the bot is not yet registered it returns false
untouched; a new entry is appended exactly when authentication fully
succeeded; and any change to the registry implies authentication
succeeded. -/
theorem connectBot_atomic (reg : Registry) (bot : BotRow)
    (auth : AuthResult) (now : String) :
    (truthyStr bot.api_token = false → connectBot reg bot auth now = (reg, false))
    ∧ (∀ e, auth = .err e → registryHas reg bot.id = false →
        connectBot reg bot auth now = (reg, false))
    ∧ (∀ u, auth = .ok u → truthyStr bot.api_token = true →
        registryHas reg bot.id = false →
        connectBot reg bot auth now =
          (reg ++ [(bot.id, { botName := bot.nome, botUsername := u, connectedAt := now })],
           true))
    ∧ ((connectBot reg bot auth now).1 ≠ reg → ∃ u, auth = .ok u) := by
  refine ⟨?_, ?_, ?_, ?_⟩
  · intro ht
    simp [connectBot, ht]
  · intro e he hhas
    subst he
    cases ht : truthyStr bot.api_token with
    | false => simp [connectBot, ht]
    | true => simp [connectBot, ht, hhas]
  · intro u hu ht hhas
    subst hu
    have : connectBot reg bot (.ok u) now =
        (registrySet reg bot.id
          { botName := bot.nome, botUsername := u, connectedAt := now }, true) := by
      simp [connectBot, ht, hhas]
    rw [this, registrySet_not_present reg bot.id _ hhas]
  · intro hne
    cases ht : truthyStr bot.api_token with
    | false => exact absurd (by simp [connectBot, ht]) hne
    | true =>
      cases hhas : registryHas reg bot.id with
      | true => exact absurd (by simp [connectBot, ht, hhas]) hne
      | false =>
        cases auth with
        | err e => exact absurd (by simp [connectBot, ht, hhas]) hne
        | ok u => exact ⟨u, rfl⟩

/-- Witness for the C9 theorem: a fresh successful connect appends
exactly one entry. -/
theorem connectBot_atomic_witness :
    connectBot [] { id := "b7", nome := "Bot7", api_token := some "7:tok" } (.ok "u7") "t7"
      = ([("b7", { botName := "Bot7", botUsername := "u7", connectedAt := "t7" })], true) :=
  (connectBot_atomic [] { id := "b7", nome := "Bot7", api_token := some "7:tok" }
      (.ok "u7") "t7").2.2.1 "u7" rfl (by decide) (by decide)

end TgRelay
